import Mathlib

/-!
# Verification of the aw-watcher-enhanced browser-extension core

A shallow embedding of the background script of the browser extension
(`browser-extension/src/options.js`, second document: the background
script), covering the capture → filter → classify → dispatch pipeline
and the dispatcher connection flag.  JavaScript strings are modelled as
Lean `String`; `a.includes(b)` as substring containment on character
lists; machine state that the script mutates (`CONFIG`, `isConnected`)
is passed explicitly.  Network calls are modelled by their observable
outcome: `Option Nat` is the HTTP status of the response, `none` a
network error (a rejected `fetch`).
-/

namespace AwWatcher

/-- `b` occurs in `a` as a contiguous sublist. -/
def listContains (a b : List Char) : Bool :=
  a.tails.any (fun t => b.isPrefixOf t)

/-- JavaScript `a.includes(b)`: `b` occurs in `a` as a contiguous substring. -/
def jsIncludes (a b : String) : Bool :=
  listContains a.toList b.toList

/-- JavaScript `s.toLowerCase()`, restricted to ASCII case folding (all the
rule-table entries and hostnames in play are ASCII). -/
def jsToLower (s : String) : String :=
  String.mk (s.toList.map Char.toLower)

/-- JavaScript `s.replace(':', '')`: remove the first occurrence of a character. -/
def removeFirstChar (c : Char) : List Char → List Char
  | [] => []
  | x :: xs => if x = c then xs else x :: removeFirstChar c xs

/-- `url.protocol.replace(':', '')` (line 400). -/
def jsProtocolStrip (s : String) : String :=
  String.mk (removeFirstChar ':' s.toList)

/-- JavaScript `s.split(c)` for a one-character separator: split at every
occurrence of `c`, keeping empty pieces.  The result is never empty. -/
def splitOnChar (c : Char) : List Char → List (List Char)
  | [] => [[]]
  | x :: xs =>
    if x = c then [] :: splitOnChar c xs
    else
      match splitOnChar c xs with
      | [] => [[x]]
      | y :: ys => (x :: y) :: ys

/--
`categorizeDomain(hostname, path)` (lines 416-511): the fixed, ordered
category-rule table.  The hostname is lower-cased, then each group's
domain-substring tests run top to bottom; the first hit returns that
entry's label, refined by path sub-rules for the github and
docs.google.com entries.  `none` means uncategorized.
-/
def categorizeDomain (hostname path : String) : Option String :=
  let domain := jsToLower hostname
  if jsIncludes domain "github.com" then
    if jsIncludes path "/pull/" then some "Work/Development/Code Review"
    else if jsIncludes path "/issues/" then some "Work/Development/Issues"
    else some "Work/Development"
  else if jsIncludes domain "gitlab.com" || jsIncludes domain "bitbucket.org" then
    some "Work/Development"
  else if jsIncludes domain "stackoverflow.com" || jsIncludes domain "stackexchange.com" then
    some "Work/Development/Research"
  else if jsIncludes domain "docs." || jsIncludes domain "documentation." ||
      jsIncludes domain "developer." || jsIncludes domain "devdocs.io" then
    some "Work/Development/Documentation"
  else if jsIncludes domain "mail.google.com" || jsIncludes domain "outlook." ||
      jsIncludes domain "mail.yahoo.com" then
    some "Work/Communication/Email"
  else if jsIncludes domain "slack.com" || jsIncludes domain "discord.com" ||
      jsIncludes domain "teams.microsoft.com" then
    some "Work/Communication/Chat"
  else if jsIncludes domain "meet.google.com" || jsIncludes domain "zoom.us" ||
      jsIncludes domain "webex.com" then
    some "Work/Communication/Meetings"
  else if jsIncludes domain "jira" || jsIncludes domain "asana.com" ||
      jsIncludes domain "trello.com" || jsIncludes domain "monday.com" ||
      jsIncludes domain "linear.app" || jsIncludes domain "notion.so" then
    some "Work/Project Management"
  else if jsIncludes domain "docs.google.com" then
    if jsIncludes path "/document/" then some "Work/Documentation/Writing"
    else if jsIncludes path "/spreadsheets/" then some "Work/Data/Spreadsheets"
    else if jsIncludes path "/presentation/" then some "Work/Presentation"
    else some "Work/Documentation"
  else if jsIncludes domain "drive.google.com" then
    some "Work/Files"
  else if jsIncludes domain "figma.com" || jsIncludes domain "canva.com" ||
      jsIncludes domain "sketch.com" then
    some "Work/Design"
  else if jsIncludes domain "twitter.com" || jsIncludes domain "x.com" ||
      jsIncludes domain "facebook.com" || jsIncludes domain "instagram.com" ||
      jsIncludes domain "linkedin.com" || jsIncludes domain "reddit.com" then
    some "Personal/Social Media"
  else if jsIncludes domain "youtube.com" || jsIncludes domain "netflix.com" ||
      jsIncludes domain "twitch.tv" || jsIncludes domain "spotify.com" ||
      jsIncludes domain "hulu.com" || jsIncludes domain "disneyplus.com" then
    some "Personal/Entertainment"
  else if jsIncludes domain "amazon." || jsIncludes domain "ebay." ||
      jsIncludes domain "etsy.com" || jsIncludes domain "shopify.com" then
    some "Personal/Shopping"
  else if jsIncludes domain "news." || jsIncludes domain "cnn.com" ||
      jsIncludes domain "bbc." || jsIncludes domain "nytimes.com" ||
      jsIncludes domain "theguardian.com" then
    some "Personal/News"
  else if jsIncludes domain "udemy.com" || jsIncludes domain "coursera.org" ||
      jsIncludes domain "edx.org" || jsIncludes domain "linkedin.com/learning" ||
      jsIncludes domain "pluralsight.com" then
    some "Research/Learning"
  else none

/-- JavaScript `s.startsWith(p)`. -/
def jsStartsWith (s p : String) : Bool :=
  p.toList.isPrefixOf s.toList

/-- JavaScript `s.split(c)` for a one-character separator, as strings. -/
def jsSplitChar (c : Char) (s : String) : List String :=
  (splitOnChar c s.toList).map String.mk

/-- The part of a string before its first occurrence of `c` (the whole string
when `c` does not occur). -/
def upToFirst (c : Char) (s : String) : String :=
  String.mk (s.toList.takeWhile (fun x => x != c))

/-- A browser tab as the background script reads it: `url` and `title` may be
absent (`undefined`), and so may `audible` (`tab.audible || false`). -/
structure Tab where
  url : Option String
  title : Option String
  incognito : Bool
  audible : Option Bool
deriving DecidableEq

/-- The components of `new URL(tab.url)` that the script reads.  The WHATWG
parser normalizes `hostname` to lower case and `protocol` carries the
trailing colon (for instance "https:"). -/
structure URLParts where
  hostname : String
  pathname : String
  protocol : String
deriving DecidableEq

/-- One entry of `CONFIG.excludePatterns`: the regex source together with the
observable result of `new RegExp(p, 'i')` — `none` when the constructor
throws, `some m` when it yields a case-insensitive matcher `m` over full
URLs. -/
structure Pattern where
  source : String
  compiled : Option (String → Bool)

/-- The `data` object built by `processTabData` (lines 390-405). -/
structure EventData where
  url : String
  title : String
  domain : String
  incognito : Bool
  tabCount : Nat
  audible : Bool
  protocol : String
  path : String
  category : Option String
deriving DecidableEq

/-- The mutable `CONFIG` object (lines 183-194), passed explicitly.
`pulsetime` (the float 6.0 in the source) only parameterizes the heartbeat
query string, so it is modelled as a natural number. -/
structure Config where
  serverUrl : String
  pollInterval : Nat
  pulsetime : Nat
  bucketId : Option String
  enabled : Bool
  trackUrls : Bool
  trackTitles : Bool
  excludePatterns : List Pattern
  excludeDomains : List String
  incognitoTracking : Bool

/-- The initial value of `CONFIG` (lines 183-194). -/
def initialConfig : Config :=
  { serverUrl := "http://localhost:5600"
    pollInterval := 5000
    pulsetime := 6
    bucketId := none
    enabled := true
    trackUrls := true
    trackTitles := true
    excludePatterns := []
    excludeDomains := ["localhost", "127.0.0.1"]
    incognitoTracking := false }

/--
`getCurrentTabData()` (lines 337-363), with the result of the
active-tab `chrome.tabs.query` passed in as `tabs`.  Returns the tab to
track, or `none` when there is no active tab, the tab is incognito while
incognito tracking is off, or the URL is absent/empty or a browser-internal
page.
-/
def getCurrentTabData (cfg : Config) (tabs : List Tab) : Option Tab :=
  match tabs with
  | [] => none
  | tab :: _ =>
    if tab.incognito && !cfg.incognitoTracking then none
    else
      match tab.url with
      | none => none
      | some u =>
        if u = "" then none
        else if jsStartsWith u "chrome://" || jsStartsWith u "chrome-extension://" ||
            jsStartsWith u "about:" || jsStartsWith u "moz-extension://" then none
        else some tab

/-- The test one exclude pattern performs on a URL (lines 381-385):
`new RegExp(p, 'i').test(tab.url)`, with a failed compilation caught and
treated as a non-match. -/
def patternTest (p : Pattern) (url : String) : Bool :=
  match p.compiled with
  | none => false
  | some m => m url

/-- `CONFIG.excludePatterns.some(...)` (lines 380-388). -/
def urlExcludedByPatterns (ps : List Pattern) (url : String) : Bool :=
  ps.any (fun p => patternTest p url)

/-- `CONFIG.excludeDomains.some(d => url.hostname.includes(d))` (line 375). -/
def hostnameExcluded (ds : List String) (hostname : String) : Bool :=
  ds.any (fun d => jsIncludes hostname d)

/--
`processTabData(tab)` (lines 368-411).  `parsed` is the outcome of
`new URL(tab.url)`: `none` when the constructor throws, in which case the
surrounding try/catch returns null.  A `tab.url` that is absent or the empty
string fails the `!tab.url` guard on line 369.
-/
def processTabData (cfg : Config) (tab : Tab) (parsed : Option URLParts) : Option EventData :=
  match tab.url with
  | none => none
  | some rawUrl =>
    if rawUrl = "" then none
    else
      match parsed with
      | none => none
      | some u =>
        if hostnameExcluded cfg.excludeDomains u.hostname then none
        else if urlExcludedByPatterns cfg.excludePatterns rawUrl then none
        else some
          { url := if cfg.trackUrls then rawUrl else "[redacted]"
            title := if cfg.trackTitles then tab.title.getD "" else "[redacted]"
            domain := u.hostname
            incognito := tab.incognito
            tabCount := 0
            audible := tab.audible.getD false
            protocol := jsProtocolStrip u.protocol
            path := u.pathname
            category := categorizeDomain u.hostname u.pathname }

/-- `response.ok` of a fetch: the HTTP status is in the 2xx range. -/
def respOk (s : Nat) : Bool :=
  decide (200 ≤ s) && decide (s < 300)

/-- The success test of `createBucket()` (line 286):
`response.ok || response.status === 304`.  `resp` is the observable outcome
of the POST: `none` for a network error (rejected fetch, caught on line
292), `some s` for a response with HTTP status `s`. -/
def createBucketOk (resp : Option Nat) : Bool :=
  match resp with
  | none => false
  | some s => respOk s || s == 304

/-- The spec's three-valued connection state. -/
inductive ConnectionState where
  | Disconnected
  | Checking
  | Connected
deriving DecidableEq

/-- The dispatcher's connection state as the code holds it: the boolean
`isConnected` (line 199), abstracted to the spec's enumeration. -/
def connState (isConnected : Bool) : ConnectionState :=
  if isConnected then ConnectionState.Connected else ConnectionState.Disconnected

/-- Every value the dispatcher connection flag holds from the start of one
`createBucket()` call (lines 274-296) to its end, given the flag's prior
value and the network outcome: the flag is written exactly once, in the
success branch (line 287) or in the catch (line 293). -/
def createBucketStates (prev : Bool) (resp : Option Nat) : List ConnectionState :=
  [connState prev, connState (createBucketOk resp)]

/-- One `sendHeartbeat(data)` call (lines 301-332): the new value of
`isConnected` paired with the event data POSTed as heartbeat, `none` when
the call returned on line 302 before issuing any request (tracking disabled
or disconnected).  On a failed POST the code also schedules a
`createBucket` retry (line 330); retries appear as separate
`DispatcherAction.ensureBucket` steps in a trace. -/
def sendHeartbeatStep (enabled connected : Bool) (data : EventData)
    (resp : Option Nat) : Bool × Option EventData :=
  if !enabled || !connected then (connected, none)
  else
    match resp with
    | some s => if respOk s then (true, some data) else (false, some data)
    | none => (false, some data)

/-- The two things that touch `isConnected`: a bucket-ensure attempt
(`createBucket`, from init, the testConnection message, or a scheduled
retry) and a produced ActivityEvent reaching `sendHeartbeat`.  Each carries
the network outcome it would observe. -/
inductive DispatcherAction where
  | ensureBucket (resp : Option Nat)
  | produce (data : EventData) (resp : Option Nat)
deriving DecidableEq

/-- Whether an action is a successful bucket-ensure. -/
def ensureSucceeds : DispatcherAction → Bool
  | DispatcherAction.ensureBucket resp => createBucketOk resp
  | DispatcherAction.produce _ _ => false

/-- One dispatcher step: the new `isConnected` and the heartbeat POST it
issued, if any. -/
def dispStep (enabled connected : Bool) : DispatcherAction → Bool × Option EventData
  | DispatcherAction.ensureBucket resp => (createBucketOk resp, none)
  | DispatcherAction.produce data resp => sendHeartbeatStep enabled connected data resp

/-- Run a sequence of dispatcher actions from a given `isConnected` value:
the final flag and every event data POSTed as a heartbeat along the way.
The script keeps no other event storage, so this list is the complete
record of dispatched events. -/
def dispRun (enabled : Bool) (connected : Bool) : List DispatcherAction → Bool × List EventData
  | [] => (connected, [])
  | a :: rest =>
    let s := dispStep enabled connected a
    let r := dispRun enabled s.fst rest
    (r.fst, s.snd.toList ++ r.snd)

/-- `heartbeat()` (lines 516-530) up to the point of calling
`sendHeartbeat`: the event data handed over (with `tabCount` filled in from
the all-tabs query), or `none` when the cycle produces nothing.  `parse`
models `new URL`. -/
def heartbeatData (cfg : Config) (activeTabs : List Tab)
    (parse : String → Option URLParts) (allTabCount : Nat) : Option EventData :=
  match getCurrentTabData cfg activeTabs with
  | none => none
  | some tab =>
    match processTabData cfg tab (tab.url.bind parse) with
    | none => none
    | some data => some { data with tabCount := allTabCount }

/-- One full sampling cycle: `heartbeat()` followed by `sendHeartbeat` when
an event was produced.  Result: the new `isConnected` and the event data
POSTed, `none` when no POST was issued. -/
def samplingCycle (cfg : Config) (connected : Bool) (activeTabs : List Tab)
    (parse : String → Option URLParts) (allTabCount : Nat)
    (resp : Option Nat) : Bool × Option EventData :=
  match heartbeatData cfg activeTabs parse allTabCount with
  | none => (connected, none)
  | some data => sendHeartbeatStep cfg.enabled connected data resp

/-- `CONFIG.bucketId` as resolved on line 212:
an interpolation of the server-reported hostname. -/
def bucketIdFor (hostname : String) : String :=
  "aw-watcher-web-enhanced_" ++ hostname

/-- The `hostname` field of the bucket-creation POST body (line 282):
`CONFIG.bucketId.split('_')[1]`.  A JavaScript out-of-range index gives
`undefined`, modelled as `none`. -/
def postedHostname (bucketId : String) : Option String :=
  (jsSplitChar '_' bucketId)[1]?

/-- The observable outcome of the `setEnabled` message case (lines
591-598). -/
structure SetEnabledOutcome where
  cfg : Config
  persistedEnabled : Option Bool
  sampled : Bool

/-- The `setEnabled` case of the message listener (lines 591-598):
`CONFIG.enabled = message.enabled; saveSettings({enabled});
if (message.enabled) heartbeat();`.  `persistedEnabled` is the value handed
to `saveSettings`, `sampled` whether `heartbeat()` was invoked. -/
def setEnabledHandler (cfg : Config) (v : Bool) : SetEnabledOutcome :=
  { cfg := { cfg with enabled := v }
    persistedEnabled := some v
    sampled := v }

/-! ## Concrete fixtures used by witnesses -/

/-- A plain tracked page. -/
def sampleURL : URLParts :=
  { hostname := "example.org", pathname := "/a", protocol := "https:" }

/-- A plain tab pointing at `sampleURL`. -/
def sampleTab : Tab :=
  { url := some "https://example.org/a", title := some "Example"
    incognito := false, audible := some false }

/-- An event as `processTabData` would build it for `sampleTab`. -/
def sampleEvent : EventData :=
  { url := "https://example.org/a", title := "Example", domain := "example.org"
    incognito := false, tabCount := 0, audible := false
    protocol := "https", path := "/a", category := none }

/-- An exclude pattern whose source does not compile. -/
def badPattern : Pattern :=
  { source := "(", compiled := none }

/-! ## Helper lemmas -/

theorem connState_ne_checking (b : Bool) : connState b ≠ ConnectionState.Checking := by
  cases b <;> simp [connState]

theorem connState_eq_connected_iff (b : Bool) :
    connState b = ConnectionState.Connected ↔ b = true := by
  cases b <;> simp [connState]

theorem createBucketOk_iff (resp : Option Nat) :
    createBucketOk resp = true ↔
      ∃ s, resp = some s ∧ ((200 ≤ s ∧ s < 300) ∨ s = 304) := by
  cases resp with
  | none => simp [createBucketOk]
  | some s =>
    simp [createBucketOk, respOk, Bool.or_eq_true, Bool.and_eq_true,
      decide_eq_true_eq, beq_iff_eq]

theorem splitOnChar_ne_nil (c : Char) (l : List Char) : splitOnChar c l ≠ [] := by
  induction l with
  | nil => simp [splitOnChar]
  | cons x xs ih =>
    simp only [splitOnChar]
    split
    · simp
    · split
      · simp
      · simp

theorem splitOnChar_head (c : Char) (l : List Char) :
    ∃ t, splitOnChar c l = l.takeWhile (fun x => x != c) :: t := by
  induction l with
  | nil => exact ⟨[], rfl⟩
  | cons x xs ih =>
    by_cases hx : x = c
    · refine ⟨splitOnChar c xs, ?_⟩
      subst hx
      simp [splitOnChar, List.takeWhile_cons]
    · obtain ⟨t, ht⟩ := ih
      refine ⟨t, ?_⟩
      have hbx : (x != c) = true := by simp [hx]
      simp only [splitOnChar, if_neg hx, ht, List.takeWhile_cons, hbx, if_pos]

theorem splitOnChar_append_sep (c : Char) (l : List Char) :
    ∀ pre : List Char, (∀ x ∈ pre, x ≠ c) →
      splitOnChar c (pre ++ c :: l) = pre :: splitOnChar c l := by
  intro pre
  induction pre with
  | nil => intro _; simp [splitOnChar]
  | cons x xs ih =>
    intro hpre
    have hx : x ≠ c := hpre x (List.mem_cons_self x xs)
    have h2 := ih (fun y hy => hpre y (List.mem_cons_of_mem x hy))
    simp only [List.cons_append, splitOnChar, if_neg hx, List.append_eq, h2]

theorem listContains_of_prefix (a b c : List Char) (hpre : c.isPrefixOf b = true)
    (hcon : listContains a b = true) : listContains a c = true := by
  simp only [listContains, List.any_eq_true] at hcon ⊢
  obtain ⟨t, htails, hp⟩ := hcon
  refine ⟨t, htails, ?_⟩
  rw [List.isPrefixOf_iff_prefix] at hpre hp ⊢
  exact hpre.trans hp

theorem jsIncludes_docs_of_docsGoogle (domain : String)
    (h : jsIncludes domain "docs.google.com" = true) :
    jsIncludes domain "docs." = true :=
  listContains_of_prefix domain.toList "docs.google.com".toList "docs.".toList
    (by decide) h

theorem ite_ne_of_branches (c : Prop) [Decidable c] {α : Type} {a b v : α}
    (ha : a ≠ v) (hb : b ≠ v) : (if c then a else b) ≠ v := by
  split
  · exact ha
  · exact hb

/-! ## Claim theorems -/

set_option maxHeartbeats 2000000 in
/-- C1: the claim expects `categorize("docs.google.com", "/spreadsheets/d/1")`
to be "Work/Data/Spreadsheets".  The code instead returns
"Work/Development/Documentation": the documentation group's `docs.`
substring entry (line 433) precedes the Google-Workspace entry (line 460)
and matches every hostname containing "docs.google.com", so the
Google-Workspace branch and its spreadsheet sub-rule are unreachable — the
label "Work/Data/Spreadsheets" is returned for no input at all. -/
theorem C1_docsGoogle_spreadsheets_eval :
    categorizeDomain "docs.google.com" "/spreadsheets/d/1" =
      some "Work/Development/Documentation" ∧
    categorizeDomain "docs.google.com" "/spreadsheets/d/1" ≠
      some "Work/Data/Spreadsheets" ∧
    ∀ host path, categorizeDomain host path ≠ some "Work/Data/Spreadsheets" := by
  refine ⟨by decide, by decide, ?_⟩
  intro host path
  by_cases hdgc : jsIncludes (jsToLower host) "docs.google.com" = true
  · have hdocs := jsIncludes_docs_of_docsGoogle (jsToLower host) hdgc
    have hc4 : (jsIncludes (jsToLower host) "docs." ||
        jsIncludes (jsToLower host) "documentation." ||
        jsIncludes (jsToLower host) "developer." ||
        jsIncludes (jsToLower host) "devdocs.io") = true := by
      rw [hdocs]
      rfl
    simp only [categorizeDomain]
    rw [if_pos hc4]
    repeat' first
    | exact (by decide)
    | refine ite_ne_of_branches _ ?_ ?_
  · have hdgc' : jsIncludes (jsToLower host) "docs.google.com" = false :=
      Bool.eq_false_iff.mpr hdgc
    simp only [categorizeDomain]
    rw [hdgc', if_neg (show ¬(false = true) by decide)]
    repeat' first
    | exact (by decide)
    | refine ite_ne_of_branches _ ?_ ?_

/-- C2 counterexample: with the initial configuration, `enabled` is already
true, yet `setEnabled(true)` still invokes `heartbeat()` — the code (lines
594-596) triggers a sampling cycle on every `setEnabled(true)`, not only on
a false-to-true transition. -/
theorem C2_counterexample :
    initialConfig.enabled = true ∧
    (setEnabledHandler initialConfig true).sampled = true :=
  ⟨rfl, rfl⟩

/-- C2 amended: `setEnabled(v)` updates `Config.enabled` to `v`, hands `v`
to `saveSettings` for persistence, and invokes `heartbeat()` exactly when
`v` is true — regardless of the previous value of `enabled`; in particular
`setEnabled(false)` never triggers a sampling cycle. -/
theorem C2_setEnabled_behavior :
    ∀ (cfg : Config) (v : Bool),
      (setEnabledHandler cfg v).cfg.enabled = v ∧
      (setEnabledHandler cfg v).persistedEnabled = some v ∧
      (setEnabledHandler cfg v).sampled = v :=
  fun _ _ => ⟨rfl, rfl, rfl⟩

/-- C3 counterexample: a successful bucket-ensure attempt starting from the
disconnected flag never passes through the `Checking` state — the
dispatcher's connection state is the boolean `isConnected`, written exactly
once per `createBucket` call, and `Checking` is not among the values it
takes. -/
theorem C3_counterexample :
    ConnectionState.Checking ∉ createBucketStates false (some 200) ∧
    connState (createBucketOk (some 200)) = ConnectionState.Connected := by
  constructor <;> decide

/-- C3 amended: every bucket-ensure attempt (all call `createBucket`) ends
with the connection state `Connected` exactly when the server responded
with HTTP 2xx or 304, and `Disconnected` on a network error or any other
response; the state never takes the value `Checking` — the dispatcher has
no intermediate checking state. -/
theorem C3_bucketEnsure_outcome :
    ∀ (prev : Bool) (resp : Option Nat),
      ConnectionState.Checking ∉ createBucketStates prev resp ∧
      (connState (createBucketOk resp) = ConnectionState.Connected ↔
        ∃ s, resp = some s ∧ ((200 ≤ s ∧ s < 300) ∨ s = 304)) := by
  intro prev resp
  constructor
  · intro hmem
    simp only [createBucketStates, List.mem_cons, List.mem_singleton] at hmem
    rcases hmem with h | h | h
    · exact connState_ne_checking prev h.symm
    · exact connState_ne_checking (createBucketOk resp) h.symm
    · exact List.not_mem_nil _ h
  · rw [connState_eq_connected_iff]
    exact createBucketOk_iff resp

/-- C8: for hostname "github.com" the categorizer returns the first matching
path sub-rule's label and otherwise the base label, with the three
concrete values the claim lists. -/
theorem C8_github_categorization :
    (∀ p : String,
      categorizeDomain "github.com" p =
        (if jsIncludes p "/pull/" then some "Work/Development/Code Review"
         else if jsIncludes p "/issues/" then some "Work/Development/Issues"
         else some "Work/Development")) ∧
    categorizeDomain "github.com" "/user/repo/pull/123" = some "Work/Development/Code Review" ∧
    categorizeDomain "github.com" "/user/repo/issues/1" = some "Work/Development/Issues" ∧
    categorizeDomain "github.com" "/user/repo" = some "Work/Development" := by
  refine ⟨?_, by decide, by decide, by decide⟩
  intro p
  have h : jsIncludes (jsToLower "github.com") "github.com" = true := by decide
  simp [categorizeDomain, h]

/-- C4: while the connection flag is down, every produced ActivityEvent is
dropped before any network call — no heartbeat POST is issued — and the
flag stays down for as long as no bucket-ensure attempt succeeds; the
dispatcher holds no queue, so the complete list of dispatched events over
such a stretch is empty. -/
theorem C4_disconnected_drops :
    ∀ (enabled : Bool) (acts : List DispatcherAction),
      (∀ a ∈ acts, ensureSucceeds a = false) →
      dispRun enabled false acts = (false, []) := by
  intro enabled acts
  induction acts with
  | nil => intro _; rfl
  | cons a rest ih =>
    intro h
    have ha : ensureSucceeds a = false := h a (List.mem_cons_self a rest)
    have hrest := ih (fun b hb => h b (List.mem_cons_of_mem a hb))
    cases a with
    | ensureBucket resp =>
      have hcb : createBucketOk resp = false := ha
      simp [dispRun, dispStep, hcb, hrest]
    | produce data resp =>
      simp [dispRun, dispStep, sendHeartbeatStep, hrest]

/-- C4 witness: starting disconnected, a trace of two produced events around
a network-failing and an HTTP-500 bucket-ensure dispatches nothing. -/
theorem C4_disconnected_drops_witness :
    dispRun true false
      [DispatcherAction.produce sampleEvent (some 200),
       DispatcherAction.ensureBucket none,
       DispatcherAction.ensureBucket (some 500),
       DispatcherAction.produce sampleEvent none] = (false, []) :=
  C4_disconnected_drops true
    [DispatcherAction.produce sampleEvent (some 200),
     DispatcherAction.ensureBucket none,
     DispatcherAction.ensureBucket (some 500),
     DispatcherAction.produce sampleEvent none] (by decide)

/-- C5 counterexample: for the server-reported hostname "my_host", the
bucket-creation body carries hostname "my" — `bucketId.split('_')[1]`
truncates at the first underscore of the hostname — so the posted value is
not the reported hostname. -/
theorem C5_counterexample :
    postedHostname (bucketIdFor "my_host") = some "my" ∧
    postedHostname (bucketIdFor "my_host") ≠ some "my_host" := by
  constructor <;> decide

/-- C5 amended: the hostname field of the bucket-creation POST body equals
the portion of the reported hostname before its first underscore — the
whole reported hostname exactly when it contains no underscore. -/
theorem C5_postedHostname_characterization :
    ∀ host : String, postedHostname (bucketIdFor host) = some (upToFirst '_' host) := by
  intro host
  have hlist : (bucketIdFor host).toList =
      "aw-watcher-web-enhanced".toList ++ '_' :: host.toList := by
    cases host
    rfl
  have hpre : ∀ x ∈ "aw-watcher-web-enhanced".toList, x ≠ '_' := by decide
  obtain ⟨t, ht⟩ := splitOnChar_head '_' host.toList
  calc postedHostname (bucketIdFor host)
      = ((splitOnChar '_' ("aw-watcher-web-enhanced".toList ++ '_' :: host.toList)).map
          String.mk)[1]? := by
        simp only [postedHostname, jsSplitChar, hlist]
    _ = (("aw-watcher-web-enhanced".toList :: splitOnChar '_' host.toList).map
          String.mk)[1]? := by
        rw [splitOnChar_append_sep '_' host.toList "aw-watcher-web-enhanced".toList hpre]
    _ = some (upToFirst '_' host) := by
        rw [ht]
        simp [upToFirst]

/-- C6: a malformed entry in `excludePatterns` matches no URL — its
`new RegExp` failure is caught and turned into `false` (lines 381-385) —
and removing it from the pattern list leaves the outcome of the privacy
filtering step on every snapshot unchanged; in particular it never blocks
an otherwise-passing snapshot, and the filtering step is a total function,
so it never raises. -/
theorem C6_malformed_pattern_harmless :
    ∀ (cfg : Config) (tab : Tab) (parsed : Option URLParts)
      (pre post : List Pattern) (p : Pattern) (url : String),
      p.compiled = none →
      patternTest p url = false ∧
      processTabData { cfg with excludePatterns := pre ++ p :: post } tab parsed =
        processTabData { cfg with excludePatterns := pre ++ post } tab parsed := by
  intro cfg tab parsed pre post p url hp
  have htest : ∀ s, patternTest p s = false := by
    intro s
    simp [patternTest, hp]
  refine ⟨htest url, ?_⟩
  have hany : ∀ s, urlExcludedByPatterns (pre ++ p :: post) s =
      urlExcludedByPatterns (pre ++ post) s := by
    intro s
    simp [urlExcludedByPatterns, List.any_append, List.any_cons, htest s]
  cases hu : tab.url with
  | none => simp [processTabData, hu]
  | some raw =>
    by_cases he : raw = ""
    · simp [processTabData, hu, he]
    · cases parsed with
      | none => simp [processTabData, hu, he]
      | some u => simp [processTabData, hu, he, hany raw]

/-- C6 witness: the non-compiling pattern "(" matches no URL, and inserting
it into the default configuration's pattern list leaves the processing of a
plain snapshot unchanged. -/
theorem C6_malformed_pattern_harmless_witness :
    patternTest badPattern "https://example.org/a" = false ∧
    processTabData { initialConfig with excludePatterns := [badPattern] }
        sampleTab (some sampleURL) =
      processTabData { initialConfig with excludePatterns := [] }
        sampleTab (some sampleURL) :=
  C6_malformed_pattern_harmless initialConfig sampleTab (some sampleURL)
    [] [] badPattern "https://example.org/a" rfl

/-- C7: an incognito snapshot with incognito tracking off is rejected in
`getCurrentTabData` (lines 347-351) before any URL, pattern or category
check, so the sampling cycle produces and dispatches nothing — whatever
every other setting, the tab's URL, path or title is, and whatever the
connection state and network would have done. -/
theorem C7_incognito_blocks :
    ∀ (cfg : Config) (connected : Bool) (tab : Tab) (rest : List Tab)
      (parse : String → Option URLParts) (n : Nat) (resp : Option Nat),
      tab.incognito = true → cfg.incognitoTracking = false →
      getCurrentTabData cfg (tab :: rest) = none ∧
      samplingCycle cfg connected (tab :: rest) parse n resp = (connected, none) := by
  intro cfg connected tab rest parse n resp hinc htrack
  have hg : getCurrentTabData cfg (tab :: rest) = none := by
    simp [getCurrentTabData, hinc, htrack]
  exact ⟨hg, by simp [samplingCycle, heartbeatData, hg]⟩

/-- C7 witness: an incognito tab under the default configuration (incognito
tracking off) yields no event even while connected. -/
theorem C7_incognito_blocks_witness :
    getCurrentTabData initialConfig
      [{ sampleTab with incognito := true }] = none ∧
    samplingCycle initialConfig true [{ sampleTab with incognito := true }]
      (fun _ => some sampleURL) 3 (some 200) = (true, none) :=
  C7_incognito_blocks initialConfig true { sampleTab with incognito := true } []
    (fun _ => some sampleURL) 3 (some 200) rfl rfl

/-- The active-tab query resolves either nothing or the head tab. -/
theorem getCurrentTabData_head (cfg : Config) (tab : Tab) (rest : List Tab) :
    getCurrentTabData cfg (tab :: rest) = none ∨
    getCurrentTabData cfg (tab :: rest) = some tab := by
  simp only [getCurrentTabData]
  split
  · exact Or.inl rfl
  · split
    · exact Or.inl rfl
    · split
      · exact Or.inl rfl
      · split
        · exact Or.inl rfl
        · exact Or.inr rfl

/-- C9: when the parsed (hence lower-cased) hostname of the snapshot's URL
contains some `excludeDomains` entry as a substring — a full DNS-label
match is not required — `processTabData` rejects the snapshot (line 375)
and the sampling cycle issues no POST, for every path, title, connection
state and network outcome. -/
theorem C9_excludeDomains_blocks :
    ∀ (cfg : Config) (connected : Bool) (tab : Tab) (rest : List Tab)
      (parse : String → Option URLParts) (n : Nat) (resp : Option Nat)
      (raw : String) (u : URLParts) (d : String),
      tab.url = some raw → parse raw = some u →
      u.hostname = jsToLower u.hostname →
      d ∈ cfg.excludeDomains → jsIncludes (jsToLower u.hostname) d = true →
      processTabData cfg tab (some u) = none ∧
      samplingCycle cfg connected (tab :: rest) parse n resp = (connected, none) := by
  intro cfg connected tab rest parse n resp raw u d hurl hparse hnorm hd hsub
  have hexcl : hostnameExcluded cfg.excludeDomains u.hostname = true := by
    rw [hnorm]
    simp only [hostnameExcluded, List.any_eq_true]
    exact ⟨d, hd, hsub⟩
  have hproc : processTabData cfg tab (some u) = none := by
    by_cases he : raw = ""
    · simp [processTabData, hurl, he]
    · simp [processTabData, hurl, he, hexcl]
  refine ⟨hproc, ?_⟩
  rcases getCurrentTabData_head cfg tab rest with hg | hg
  · simp [samplingCycle, heartbeatData, hg]
  · have hbind : tab.url.bind parse = some u := by
      rw [hurl]
      simpa using hparse
    simp [samplingCycle, heartbeatData, hg, hbind, hproc]

/-- C9 witness: a tab on localhost — whose hostname contains the default
excludeDomains entry "localhost" — produces no POST even while connected
and with the server answering 200. -/
theorem C9_excludeDomains_blocks_witness :
    processTabData initialConfig
      { sampleTab with url := some "http://localhost:5600/x" }
      (some { hostname := "localhost", pathname := "/x", protocol := "http:" }) = none ∧
    samplingCycle initialConfig true
      [{ sampleTab with url := some "http://localhost:5600/x" }]
      (fun _ => some { hostname := "localhost", pathname := "/x", protocol := "http:" })
      2 (some 200) = (true, none) :=
  C9_excludeDomains_blocks initialConfig true
    { sampleTab with url := some "http://localhost:5600/x" } []
    (fun _ => some { hostname := "localhost", pathname := "/x", protocol := "http:" })
    2 (some 200) "http://localhost:5600/x"
    { hostname := "localhost", pathname := "/x", protocol := "http:" } "localhost"
    rfl rfl (by decide) (by decide) (by decide)

/-- C10: on an accepted snapshot, turning `trackUrls` off replaces the
event's url field by the literal "[redacted]" and turning `trackTitles`
off does the same for the title, while the domain, path, protocol and
category fields are computed from the parsed real URL no matter how these
two flags are set (lines 390-405). -/
theorem C10_redaction_and_real_fields :
    ∀ (cfg : Config) (tab : Tab) (raw : String) (u : URLParts) (data : EventData),
      tab.url = some raw →
      processTabData cfg tab (some u) = some data →
      (cfg.trackUrls = false → data.url = "[redacted]") ∧
      (cfg.trackTitles = false → data.title = "[redacted]") ∧
      data.domain = u.hostname ∧
      data.path = u.pathname ∧
      data.protocol = jsProtocolStrip u.protocol ∧
      data.category = categorizeDomain u.hostname u.pathname := by
  intro cfg tab raw u data hurl hproc
  simp only [processTabData, hurl] at hproc
  split at hproc
  · simp at hproc
  · split at hproc
    · simp at hproc
    · split at hproc
      · simp at hproc
      · simp only [Option.some.injEq] at hproc
        subst hproc
        refine ⟨?_, ?_, rfl, rfl, rfl, rfl⟩
        · intro h
          simp [h]
        · intro h
          simp [h]

/-- C10 witness: with both flags off, the event built for a plain snapshot
carries redacted url and title but the real domain, path, protocol and
category. -/
theorem C10_redaction_and_real_fields_witness :
    ({ sampleEvent with url := "[redacted]", title := "[redacted]" } : EventData).url
        = "[redacted]" ∧
    ({ sampleEvent with url := "[redacted]", title := "[redacted]" } : EventData).title
        = "[redacted]" ∧
    ({ sampleEvent with url := "[redacted]", title := "[redacted]" } : EventData).domain
        = sampleURL.hostname ∧
    ({ sampleEvent with url := "[redacted]", title := "[redacted]" } : EventData).path
        = sampleURL.pathname ∧
    ({ sampleEvent with url := "[redacted]", title := "[redacted]" } : EventData).protocol
        = jsProtocolStrip sampleURL.protocol ∧
    ({ sampleEvent with url := "[redacted]", title := "[redacted]" } : EventData).category
        = categorizeDomain sampleURL.hostname sampleURL.pathname := by
  have h := C10_redaction_and_real_fields
    { initialConfig with trackUrls := false, trackTitles := false }
    sampleTab "https://example.org/a" sampleURL
    { sampleEvent with url := "[redacted]", title := "[redacted]" }
    rfl (by decide)
  exact ⟨h.1 rfl, h.2.1 rfl, h.2.2.1, h.2.2.2.1, h.2.2.2.2.1, h.2.2.2.2.2⟩

end AwWatcher
